import Mathlib

/-!
Verification of the statistics computation in the CAC analysis program
(src/analysis.py).  The analysis object holds the fixed quarterly
observations, a target value and a precomputed average; perform_analysis
builds per-observation gap and percentage columns and a statistics record
(mean, median, standard deviation, min, max, range, coefficient of
variation, aggregate gap and aggregate percentage above target).
Numeric values are embedded as rationals; the standard deviation, whose
value is irrational, lives in the reals via Real.sqrt.
-/

namespace CAC

/-- Arithmetic mean as computed by np.mean: sum divided by length. -/
def mean (xs : List ℚ) : ℚ := xs.sum / xs.length

/-- Median as computed by np.median: sort ascending, take the middle
element for odd length, the average of the two middle elements for even
length. -/
def median (xs : List ℚ) : ℚ :=
  let s := List.insertionSort (· ≤ ·) xs
  let n := xs.length
  if n % 2 = 1 then s.getD (n / 2) 0
  else (s.getD (n / 2 - 1) 0 + s.getD (n / 2) 0) / 2

/-- Population variance: mean of squared deviations, divisor N.  This is
the quantity under the square root in np.std with its default ddof = 0. -/
def popVar (xs : List ℚ) : ℚ :=
  (xs.map (fun x => (x - mean xs) ^ 2)).sum / xs.length

/-- Sample variance (divisor N − 1): the alternative the spec rules out;
stated for comparison with popVar, not used by the program. -/
def sampleVar (xs : List ℚ) : ℚ :=
  (xs.map (fun x => (x - mean xs) ^ 2)).sum / ((xs.length : ℚ) - 1)

/-- Standard deviation as computed by np.std: square root of the
population variance. -/
noncomputable def std (xs : List ℚ) : ℝ := Real.sqrt ((popVar xs : ℝ))

/-- np.min on a nonempty list (the program never reaches it empty). -/
def listMin : List ℚ → ℚ
  | [] => 0
  | x :: xs => xs.foldl min x

/-- np.max on a nonempty list (the program never reaches it empty). -/
def listMax : List ℚ → ℚ
  | [] => 0
  | x :: xs => xs.foldl max x

/-- Round to the nearest integer, ties to even: the rounding used by
numpy and hence by the pandas Series.round in the percentage column. -/
def roundHalfEven (q : ℚ) : ℤ :=
  let f := ⌊q⌋
  let r := q - f
  if r < 1/2 then f
  else if 1/2 < r then f + 1
  else if f % 2 = 0 then f else f + 1

/-- pandas Series.round(2): round to two decimal places. -/
def round2 (q : ℚ) : ℚ := (roundHalfEven (q * 100) : ℤ) / 100

/-- The state set up by CACAnalysis.__init__: quarter labels, CAC
observations, the target, and the precomputed np.mean of the
observations. -/
structure CACAnalysis where
  quarters : List String
  cac : List ℚ
  target_cac : ℚ
  average_cac : ℚ

/-- The fixed 2024 quarterly CAC observations from __init__. -/
def cacValues : List ℚ := [2256/10, 22897/100, 23424/100, 23471/100]

/-- CACAnalysis.__init__: fixed quarterly data, target 150, average
precomputed with np.mean over the same observation list. -/
def CACAnalysis.init : CACAnalysis :=
  { quarters := ["Q1 2024", "Q2 2024", "Q3 2024", "Q4 2024"]
    cac := cacValues
    target_cac := 150
    average_cac := mean cacValues }

/-- The DataFrame columns built at the start of perform_analysis: quarter
labels, observations, gap to target, and percentage above target rounded
to two decimals. -/
structure DF where
  quarter : List String
  cac : List ℚ
  gap_to_target : List ℚ
  pct_above_target : List ℚ

/-- The stats record built by perform_analysis. -/
structure Stats where
  meanCAC : ℚ
  medianCAC : ℚ
  stdDev : ℝ
  minCAC : ℚ
  maxCAC : ℚ
  range : ℚ
  coeffOfVariation : ℝ
  totalGapFromTarget : ℚ
  pctAboveTarget : ℚ

/-- CACAnalysis.perform_analysis: builds the per-quarter DataFrame columns
and the stats record.  The aggregate gap and aggregate percentage use the
precomputed average_cac; every other statistic is computed afresh from the
observation list. -/
noncomputable def performAnalysis (a : CACAnalysis) : DF × Stats :=
  ({ quarter := a.quarters
     cac := a.cac
     gap_to_target := a.cac.map (fun x => x - a.target_cac)
     pct_above_target :=
       a.cac.map (fun x => round2 ((x - a.target_cac) / a.target_cac * 100)) },
   { meanCAC := mean a.cac
     medianCAC := median a.cac
     stdDev := std a.cac
     minCAC := listMin a.cac
     maxCAC := listMax a.cac
     range := listMax a.cac - listMin a.cac
     coeffOfVariation := std a.cac / ((mean a.cac : ℝ)) * 100
     totalGapFromTarget := a.average_cac - a.target_cac
     pctAboveTarget := (a.average_cac - a.target_cac) / a.target_cac * 100 })

/-- Value of a float computation: a finite value (kept exact as a
rational), a signed infinity, or nan.  numpy float division by zero does
not raise: it yields an infinity (or nan for 0/0) with a RuntimeWarning
and the computation continues. -/
inductive FloatVal where
  | fin (q : ℚ)
  | posInf
  | negInf
  | nan
deriving DecidableEq

/-- Real-valued float computation (for the standard deviation and the
coefficient of variation, whose finite values are irrational). -/
inductive FloatValR where
  | fin (r : ℝ)
  | posInf
  | negInf
  | nan

/-- Float division: finite quotient when the divisor is nonzero,
otherwise a signed infinity (nan for 0/0), never an error. -/
def fdiv (a b : ℚ) : FloatVal :=
  if b ≠ 0 then .fin (a / b)
  else if 0 < a then .posInf
  else if a < 0 then .negInf
  else .nan

/-- Multiplication by the positive constant 100, as applied after the
divisions by the target; infinities and nan are preserved. -/
def mul100 : FloatVal → FloatVal
  | .fin q => .fin (q * 100)
  | v => v

/-- pandas Series.round(2) on a float value: rounds finite values and
leaves infinities and nan unchanged. -/
def round2F : FloatVal → FloatVal
  | .fin q => .fin (round2 q)
  | v => v

/-- np.mean: nan (with a RuntimeWarning, no abort) on the empty list. -/
def meanF (xs : List ℚ) : FloatVal := if xs = [] then .nan else .fin (mean xs)

/-- np.median: nan (with a RuntimeWarning, no abort) on the empty list. -/
def medianF (xs : List ℚ) : FloatVal := if xs = [] then .nan else .fin (median xs)

/-- np.std: nan (with a RuntimeWarning, no abort) on the empty list. -/
noncomputable def stdF (xs : List ℚ) : FloatValR :=
  if xs = [] then .nan else .fin (Real.sqrt ((popVar xs : ℝ)))

/-- np.min raises ValueError on a zero-size array: the one genuinely
aborting operation in the statistics computation. -/
def minOptF (xs : List ℚ) : Option ℚ := if xs = [] then none else some (listMin xs)

/-- np.max raises ValueError on a zero-size array, like np.min. -/
def maxOptF (xs : List ℚ) : Option ℚ := if xs = [] then none else some (listMax xs)

/-- The coefficient of variation np.std/np.mean·100: nan on the empty
list; a float division by the mean otherwise, which for a zero mean gives
an infinity (or nan when the deviation is also zero), not an abort. -/
noncomputable def cvF (xs : List ℚ) : FloatValR :=
  if xs = [] then .nan
  else if mean xs ≠ 0 then
    .fin (Real.sqrt ((popVar xs : ℝ)) / ((mean xs : ℚ) : ℝ) * 100)
  else if popVar xs ≠ 0 then .posInf
  else .nan

/-- The gap and percentage columns of lines 46-47: elementwise float
arithmetic that never raises; with a zero target the percentage entries
are infinities or nan, and the DataFrame is still built. -/
def dfColsF (xs : List ℚ) (t : ℚ) : List ℚ × List FloatVal :=
  (xs.map (fun x => x - t), xs.map (fun x => round2F (mul100 (fdiv (x - t) t))))

/-- The stats record of lines 54-64 under float semantics. -/
structure StatsF where
  meanCAC : FloatVal
  medianCAC : FloatVal
  stdDev : FloatValR
  minCAC : ℚ
  maxCAC : ℚ
  range : ℚ
  coeffOfVariation : FloatValR
  totalGapFromTarget : ℚ
  pctAboveTarget : FloatVal

/-- The DataFrame of lines 45-47 under float semantics: the percentage
column may hold non-finite values. -/
structure DFF where
  quarter : List String
  cac : List ℚ
  gap_to_target : List ℚ
  pct_above_target : List FloatVal

/-- The stats record computation with faithful failure semantics: mean,
median and standard deviation of an empty list are nan (warnings, no
abort); np.min and np.max of an empty list raise, aborting the run; the
divisions by the mean and by the target yield infinities or nan when the
divisor is zero and never abort. -/
noncomputable def statsOptF (xs : List ℚ) (t avg : ℚ) : Option StatsF := do
  let m := meanF xs
  let med := medianF xs
  let sd := stdF xs
  let mn ← minOptF xs
  let mx ← maxOptF xs
  pure { meanCAC := m, medianCAC := med, stdDev := sd,
         minCAC := mn, maxCAC := mx, range := mx - mn,
         coeffOfVariation := cvF xs,
         totalGapFromTarget := avg - t,
         pctAboveTarget := mul100 (fdiv (avg - t) t) }

/-- perform_analysis under float semantics: the DataFrame columns never
raise; the stats record aborts exactly when np.min/np.max raise, and
nothing catches the exception, so the whole result is lost. -/
noncomputable def performAnalysisOptF (a : CACAnalysis) : Option (DFF × StatsF) := do
  let cols := dfColsF a.cac a.target_cac
  let s ← statsOptF a.cac a.target_cac a.average_cac
  pure ({ quarter := a.quarters, cac := a.cac,
          gap_to_target := cols.1, pct_above_target := cols.2 }, s)

/-! Concrete evaluations on the fixed input, shared by the claim
theorems. -/

theorem mean_cacValues : mean cacValues = 23088/100 := by
  norm_num [mean, cacValues]

theorem sort_cacValues : List.insertionSort (· ≤ ·) cacValues = cacValues := by
  norm_num [cacValues, List.insertionSort, List.orderedInsert]

theorem median_cacValues : median cacValues = 231605/1000 := by
  norm_num [median, cacValues, List.insertionSort, List.orderedInsert]

theorem popVar_cacValues : popVar cacValues = 11497/800 := by
  norm_num [popVar, mean, cacValues]

theorem sampleVar_cacValues : sampleVar cacValues = 11497/600 := by
  norm_num [sampleVar, mean, cacValues]

theorem listMin_cacValues : listMin cacValues = 2256/10 := by
  norm_num [listMin, cacValues, min_def]

theorem listMax_cacValues : listMax cacValues = 23471/100 := by
  norm_num [listMax, cacValues, max_def]

theorem gapCol_cacValues :
    cacValues.map (fun x => x - 150) = [756/10, 7897/100, 8424/100, 8471/100] := by
  norm_num [cacValues]

theorem round2_q1 : round2 ((2256/10 - 150) / 150 * 100) = 504/10 := by
  norm_num [round2, roundHalfEven]

theorem round2_q2 : round2 ((22897/100 - 150) / 150 * 100) = 5265/100 := by
  norm_num [round2, roundHalfEven]

theorem round2_q3 : round2 ((23424/100 - 150) / 150 * 100) = 5616/100 := by
  norm_num [round2, roundHalfEven]

theorem round2_q4 : round2 ((23471/100 - 150) / 150 * 100) = 5647/100 := by
  norm_num [round2, roundHalfEven]

theorem pctCol_cacValues :
    cacValues.map (fun x => round2 ((x - 150) / 150 * 100))
      = [504/10, 5265/100, 5616/100, 5647/100] := by
  simp only [cacValues, List.map_cons, List.map_nil]
  rw [round2_q1, round2_q2, round2_q3, round2_q4]

/-! Claim theorems. -/

/-- C1: the reported standard deviation is the population standard
deviation: it is the square root of the sum of squared deviations divided
by N (here N = 4), which is 11497/800; the sample variant dividing by
N − 1 = 3 gives 11497/600, and the reported value differs from the sample
standard deviation. -/
theorem C1_std_is_population :
    (performAnalysis CACAnalysis.init).2.stdDev = Real.sqrt ((popVar cacValues : ℝ))
      ∧ popVar cacValues
          = (cacValues.map (fun x => (x - mean cacValues) ^ 2)).sum / 4
      ∧ popVar cacValues = 11497/800
      ∧ sampleVar cacValues = 11497/600
      ∧ (performAnalysis CACAnalysis.init).2.stdDev
          ≠ Real.sqrt ((sampleVar cacValues : ℝ)) := by
  refine ⟨rfl, ?_, popVar_cacValues, sampleVar_cacValues, ?_⟩
  · norm_num [popVar, mean, cacValues]
  · intro h
    have h' : Real.sqrt ((popVar cacValues : ℝ))
        = Real.sqrt ((sampleVar cacValues : ℝ)) := h
    have h0 : ((popVar cacValues : ℚ) : ℝ) = ((sampleVar cacValues : ℚ) : ℝ) := by
      refine (Real.sqrt_inj ?_ ?_).mp h'
      · rw [popVar_cacValues]; norm_num
      · rw [sampleVar_cacValues]; norm_num
    have h1 : popVar cacValues = sampleVar cacValues := by exact_mod_cast h0
    rw [popVar_cacValues, sampleVar_cacValues] at h1
    norm_num at h1

/-- C2 counterexample: at the second observation 228.97 the reported
percentage-above-target is the two-decimal rounding 52.65, while
(gap/target)·100 is exactly 7897/150 = 52.64666…, so the two differ. -/
theorem C2_pct_is_rounded_cex :
    ((performAnalysis CACAnalysis.init).1.pct_above_target).getD 1 0 = 5265/100
      ∧ (cacValues.getD 1 0 - 150) / 150 * 100 = 7897/150
      ∧ ((performAnalysis CACAnalysis.init).1.pct_above_target).getD 1 0
          ≠ (cacValues.getD 1 0 - 150) / 150 * 100 := by
  have hcol : (performAnalysis CACAnalysis.init).1.pct_above_target
      = [504/10, 5265/100, 5616/100, 5647/100] := by
    show cacValues.map (fun x => round2 ((x - 150) / 150 * 100))
        = [504/10, 5265/100, 5616/100, 5647/100]
    exact pctCol_cacValues
  rw [hcol]
  norm_num [cacValues]

/-- C2 amended: the gap column is observation − target, and the
percentage column is (gap/target)·100 rounded to two decimal places;
for the fixed input the columns are [75.6, 78.97, 84.24, 84.71] and
[50.40, 52.65, 56.16, 56.47]. -/
theorem C2_gap_and_rounded_pct :
    (∀ a : CACAnalysis,
        (performAnalysis a).1.gap_to_target = a.cac.map (fun x => x - a.target_cac)
          ∧ (performAnalysis a).1.pct_above_target
              = ((performAnalysis a).1.gap_to_target).map
                  (fun g => round2 (g / a.target_cac * 100)))
      ∧ (performAnalysis CACAnalysis.init).1.gap_to_target
          = [756/10, 7897/100, 8424/100, 8471/100]
      ∧ (performAnalysis CACAnalysis.init).1.pct_above_target
          = [504/10, 5265/100, 5616/100, 5647/100] := by
  refine ⟨fun a => ⟨rfl, ?_⟩, ?_, ?_⟩
  · show a.cac.map (fun x => round2 ((x - a.target_cac) / a.target_cac * 100))
        = (a.cac.map (fun x => x - a.target_cac)).map
            (fun g => round2 (g / a.target_cac * 100))
    rw [List.map_map]
    rfl
  · exact gapCol_cacValues
  · exact pctCol_cacValues

/-- C4: the reported mean is the arithmetic average of the observations;
for the fixed input it is exactly 230.88, hence within ±0.01 of 230.88. -/
theorem C4_mean_is_average :
    (∀ a : CACAnalysis, (performAnalysis a).2.meanCAC = a.cac.sum / a.cac.length)
      ∧ (performAnalysis CACAnalysis.init).2.meanCAC = 23088/100
      ∧ |(performAnalysis CACAnalysis.init).2.meanCAC - 23088/100| ≤ 1/100 := by
  have h2 : (performAnalysis CACAnalysis.init).2.meanCAC = 23088/100 := mean_cacValues
  refine ⟨fun a => rfl, h2, ?_⟩
  rw [h2]
  norm_num

/-- C5: for the fixed four observations (already in ascending order) the
median is the average of the two middle values of the sorted list,
(228.97 + 234.24)/2 = 231.605. -/
theorem C5_median_two_middles :
    List.insertionSort (· ≤ ·) cacValues = cacValues
      ∧ (performAnalysis CACAnalysis.init).2.medianCAC = (22897/100 + 23424/100) / 2
      ∧ (performAnalysis CACAnalysis.init).2.medianCAC = 231605/1000 := by
  have h2 : (performAnalysis CACAnalysis.init).2.medianCAC = 231605/1000 :=
    median_cacValues
  refine ⟨sort_cacValues, ?_, h2⟩
  rw [h2]
  norm_num

theorem statsOptF_cacValues_zero_target :
    statsOptF cacValues 0 (mean cacValues)
      = some { meanCAC := .fin (mean cacValues), medianCAC := .fin (median cacValues),
               stdDev := .fin (Real.sqrt ((popVar cacValues : ℝ))),
               minCAC := listMin cacValues, maxCAC := listMax cacValues,
               range := listMax cacValues - listMin cacValues,
               coeffOfVariation :=
                 .fin (Real.sqrt ((popVar cacValues : ℝ))
                   / ((mean cacValues : ℚ) : ℝ) * 100),
               totalGapFromTarget := mean cacValues - 0,
               pctAboveTarget := .posInf } := by
  have hne : cacValues ≠ [] := by simp [cacValues]
  have hm0 : mean cacValues ≠ 0 := by rw [mean_cacValues]; norm_num
  have hmp : 0 < mean cacValues - 0 := by rw [mean_cacValues]; norm_num
  simp only [statsOptF, meanF, medianF, stdF, cvF, minOptF, maxOptF,
    if_neg hne, if_pos hm0, Option.some_bind, fdiv]
  rw [if_neg (by norm_num : ¬(0:ℚ) ≠ 0), if_pos hmp]
  rfl

/-- C3 counterexample: with the fixed nonempty observations and a zero
target the computation does not abort: float division by zero yields
infinities, so the percentage column is +inf in every entry, the
aggregate percentage above target is +inf, and perform_analysis still
returns its DataFrame and stats. -/
theorem C3_zero_target_completes_cex :
    (dfColsF cacValues 0).2
        = [FloatVal.posInf, FloatVal.posInf, FloatVal.posInf, FloatVal.posInf]
      ∧ (statsOptF cacValues 0 (mean cacValues)).map (fun s => s.pctAboveTarget)
          = some FloatVal.posInf
      ∧ performAnalysisOptF
          { quarters := ["Q1 2024", "Q2 2024", "Q3 2024", "Q4 2024"],
            cac := cacValues, target_cac := 0, average_cac := mean cacValues }
          ≠ none := by
  refine ⟨?_, ?_, ?_⟩
  · norm_num [dfColsF, cacValues, fdiv, mul100, round2F]
  · rw [statsOptF_cacValues_zero_target]
    rfl
  · show (performAnalysisOptF _) ≠ none
    simp only [performAnalysisOptF, statsOptF_cacValues_zero_target, Option.some_bind]
    simp

/-- C3 (amended): the statistics computation aborts the run exactly
through the empty observation list — np.min and np.max raise ValueError
on a zero-size array — and nothing catches the exception, so no partial
result survives; a zero target is not an abort (see the
counterexample). -/
theorem C3_empty_observations_abort (a : CACAnalysis) (h : a.cac = []) :
    statsOptF a.cac a.target_cac a.average_cac = none
      ∧ performAnalysisOptF a = none := by
  constructor
  · simp [statsOptF, minOptF, h]
  · simp [performAnalysisOptF, statsOptF, minOptF, h]

/-- C3 witness: the empty observation list with target 150. -/
theorem C3_empty_observations_abort_witness :
    statsOptF [] 150 (mean []) = none
      ∧ performAnalysisOptF
          { quarters := [], cac := [], target_cac := 150,
            average_cac := mean [] } = none :=
  C3_empty_observations_abort
    { quarters := [], cac := [], target_cac := 150,
      average_cac := mean [] } rfl

/-- C6: the aggregate gap is the stored average minus the target — for
the fixed input, mean − 150 = 80.88 exactly, hence within ±0.01 — and the
aggregate percentage above target is (aggregate gap / target)·100, which
is exactly 53.92, within 0.1 of 53.9. -/
theorem C6_aggregate_gap_and_pct :
    (∀ a : CACAnalysis,
        (performAnalysis a).2.totalGapFromTarget = a.average_cac - a.target_cac
          ∧ (performAnalysis a).2.pctAboveTarget
              = (performAnalysis a).2.totalGapFromTarget / a.target_cac * 100)
      ∧ (performAnalysis CACAnalysis.init).2.totalGapFromTarget
          = mean cacValues - 150
      ∧ (performAnalysis CACAnalysis.init).2.totalGapFromTarget = 8088/100
      ∧ |(performAnalysis CACAnalysis.init).2.totalGapFromTarget - 8088/100| ≤ 1/100
      ∧ (performAnalysis CACAnalysis.init).2.pctAboveTarget = 5392/100
      ∧ |(performAnalysis CACAnalysis.init).2.pctAboveTarget - 539/10| ≤ 1/10 := by
  have hgap : (performAnalysis CACAnalysis.init).2.totalGapFromTarget = 8088/100 := by
    show mean cacValues - 150 = 8088/100
    rw [mean_cacValues]; norm_num
  have hpct : (performAnalysis CACAnalysis.init).2.pctAboveTarget = 5392/100 := by
    show (mean cacValues - 150) / 150 * 100 = 5392/100
    rw [mean_cacValues]; norm_num
  refine ⟨fun a => ⟨rfl, rfl⟩, rfl, hgap, ?_, hpct, ?_⟩
  · rw [hgap]; norm_num
  · rw [hpct, abs_le]
    constructor <;> norm_num

/-- C7: in every report the coefficient of variation is the reported
standard deviation divided by the reported mean, times 100, both computed
from the same observation list. -/
theorem C7_coeff_of_variation (a : CACAnalysis) :
    (performAnalysis a).2.coeffOfVariation
      = (performAnalysis a).2.stdDev / (((performAnalysis a).2.meanCAC : ℚ) : ℝ) * 100 :=
  rfl

/-- C8: in every report the range is the maximum minus the minimum; for
the fixed input max = 234.71, min = 225.6 and range = 9.11. -/
theorem C8_range :
    (∀ a : CACAnalysis,
        (performAnalysis a).2.range
          = (performAnalysis a).2.maxCAC - (performAnalysis a).2.minCAC)
      ∧ (performAnalysis CACAnalysis.init).2.maxCAC = 23471/100
      ∧ (performAnalysis CACAnalysis.init).2.minCAC = 2256/10
      ∧ (performAnalysis CACAnalysis.init).2.range = 911/100 := by
  refine ⟨fun a => rfl, listMax_cacValues, listMin_cacValues, ?_⟩
  show listMax cacValues - listMin cacValues = 911/100
  rw [listMax_cacValues, listMin_cacValues]
  norm_num

/-- C9: the analysis is a pure function of (observations, target): any
two states that agree on the observation list and the target — with the
stored average being the mean of the observations, as __init__ always
makes it — produce identical gap and percentage columns and an identical
stats record, so recomputation yields the same report. -/
theorem C9_pure_function_of_inputs (a b : CACAnalysis)
    (hc : a.cac = b.cac) (ht : a.target_cac = b.target_cac)
    (ha : a.average_cac = mean a.cac) (hb : b.average_cac = mean b.cac) :
    (performAnalysis a).1.gap_to_target = (performAnalysis b).1.gap_to_target
      ∧ (performAnalysis a).1.pct_above_target = (performAnalysis b).1.pct_above_target
      ∧ (performAnalysis a).2 = (performAnalysis b).2 := by
  have havg : a.average_cac = b.average_cac := by rw [ha, hb, hc]
  refine ⟨?_, ?_, ?_⟩
  · simp only [performAnalysis]
    rw [hc, ht]
  · simp only [performAnalysis]
    rw [hc, ht]
  · simp only [performAnalysis]
    rw [hc, ht, havg]

/-- C9 witness: the initial state compared with itself. -/
theorem C9_pure_function_of_inputs_witness :
    (performAnalysis CACAnalysis.init).1.gap_to_target
        = (performAnalysis CACAnalysis.init).1.gap_to_target
      ∧ (performAnalysis CACAnalysis.init).1.pct_above_target
          = (performAnalysis CACAnalysis.init).1.pct_above_target
      ∧ (performAnalysis CACAnalysis.init).2 = (performAnalysis CACAnalysis.init).2 :=
  C9_pure_function_of_inputs CACAnalysis.init CACAnalysis.init rfl rfl rfl rfl

/-- C10: for any state whose observation list has exactly one element,
the reported standard deviation is 0 and the reported range is 0. -/
theorem C10_single_observation (qs : List String) (x t avg : ℚ) :
    (performAnalysis
        { quarters := qs, cac := [x], target_cac := t, average_cac := avg }).2.stdDev = 0
      ∧ (performAnalysis
          { quarters := qs, cac := [x], target_cac := t, average_cac := avg }).2.range
          = 0 := by
  constructor
  · show Real.sqrt ((popVar [x] : ℝ)) = 0
    have h0 : popVar [x] = 0 := by
      simp [popVar, mean]
    rw [h0]
    simp
  · show listMax [x] - listMin [x] = 0
    simp [listMax, listMin]
